import Mathlib

/-
Verification of the score-to-category mapping engine and the lexical
counting functions of nlp_profiler (src/nlp_profiler/core.py).

Texts are modelled as `List Char`; Python floats are modelled as `ℚ`
(all scores involved are exact decimal values, so no rounding is lost);
fallible operations return `Option` (`none` models a raised exception).
External collaborators (the NLTK word tokenizer, the TextBlob spellcheck,
the emoji transliterator) are modelled as function parameters, as §6 of
the design treats them as injected capabilities.
-/

/-! ## String helpers (models of Python str operations) -/

/-- Model of Python `needle in hay` for strings: contiguous substring test. -/
def isSubList (needle : List Char) : List Char → Bool
  | [] => needle.isEmpty
  | h :: t => needle.isPrefixOf (h :: t) || isSubList needle t

/-- Model of Python `str.lower` (ASCII case folding; all labels are ASCII). -/
def pyLower (t : List Char) : List Char := t.map Char.toLower

/-- Model of Python `str.strip()`: drop leading and trailing whitespace. -/
def pyStrip (t : List Char) : List Char :=
  ((t.dropWhile Char.isWhitespace).reverse.dropWhile Char.isWhitespace).reverse

/-- Model of the guard `(not text) or (len(text.strip()) == 0)`. -/
def pyIsBlank (t : List Char) : Bool := t.isEmpty || (pyStrip t).isEmpty

/-- Substring test lifted to `String`. -/
def containsSub (needle hay : String) : Bool := isSubList needle.toList hay.toList

/-! ## Labels and fixed constants of core.py -/

def NOT_APPLICABLE : String := "N/A"

def lblVeryPositive : String := "Very positive"
def lblQuitePositive : String := "Quite positive"
def lblPrettyPositive : String := "Pretty positive"
def lblNeutral : String := "Neutral"
def lblPrettyNegative : String := "Pretty negative"
def lblQuiteNegative : String := "Quite negative"
def lblVeryNegative : String := "Very negative"

def lblVerySubjective : String := "Very subjective"
def lblQuiteSubjective : String := "Quite subjective"
def lblPrettySubjective : String := "Pretty subjective"
def lblObjectiveSubjective : String := "Objective/subjective"
def lblPrettyObjective : String := "Pretty objective"
def lblQuiteObjective : String := "Quite objective"
def lblVeryObjective : String := "Very objective"

def lblVeryGood : String := "Very good"
def lblQuiteGood : String := "Quite good"
def lblGood : String := "Good"
def lblPrettyGood : String := "Pretty good"
def lblBad : String := "Bad"
def lblPrettyBad : String := "Pretty bad"
def lblQuiteBad : String := "Quite bad"
def lblVeryBad : String := "Very bad"

def catNegative : String := "Negative"
def catPositive : String := "Positive"
def catSubjective : String := "Subjective"
def catObjective : String := "Objective"

def needleNegative : String := "negative"
def needlePositive : String := "positive"
def needleSubjective : String := "subjective"
def needleGood : String := "good"

/-! ## Slab tables (verbatim from core.py) -/

def sentiment_polarity_to_words_mapping : List (String × ℚ × ℚ) :=
  [(lblVeryPositive, 99, 100),
   (lblQuitePositive, 87, 99),
   (lblPrettyPositive, 51, 87),
   (lblNeutral, 49, 51),
   (lblPrettyNegative, 12, 49),
   (lblQuiteNegative, 2, 12),
   (lblVeryNegative, 0, 2)]

def sentiment_subjectivity_to_words_mapping : List (String × ℚ × ℚ) :=
  [(lblVerySubjective, 99, 100),
   (lblQuiteSubjective, 87, 99),
   (lblPrettySubjective, 63, 87),
   (lblObjectiveSubjective, 40, 63),
   (lblPrettyObjective, 12, 40),
   (lblQuiteObjective, 2, 12),
   (lblVeryObjective, 0, 2)]

def spelling_quality_score_to_words_mapping : List (String × ℚ × ℚ) :=
  [(lblVeryGood, 99, 100),
   (lblQuiteGood, 90, 99),
   (lblGood, 87, 90),
   (lblPrettyGood, 63, 87),
   (lblBad, 40, 63),
   (lblPrettyBad, 12, 40),
   (lblQuiteBad, 2, 12),
   (lblVeryBad, 0, 2)]

/-! ## Slab classifier -/

/-- A classifier input is either the `NOT_APPLICABLE` string sentinel or a
number (the dataframe column holds one or the other). -/
inductive ScoreInput where
  | na : ScoreInput
  | num (q : ℚ) : ScoreInput

/-- Model of the `for each_slab in mapping: if score greater-eq lower and
score less-eq upper: return label` scan; falling off the loop returns
Python `None`, modelled as `none`. -/
def classifyScan (mapping : List (String × ℚ × ℚ)) (score : ℚ) : Option String :=
  match mapping with
  | [] => none
  | (label, lo, hi) :: rest =>
    if lo ≤ score ∧ score ≤ hi then some label else classifyScan rest score

/-- Model of `sentiment_polarity(score)` from core.py. -/
def sentiment_polarity : ScoreInput → Option String
  | .na => some NOT_APPLICABLE
  | .num q => classifyScan sentiment_polarity_to_words_mapping ((q + 1) / 2 * 100)

/-- Model of `sentiment_subjectivity(score)` from core.py. -/
def sentiment_subjectivity : ScoreInput → Option String
  | .na => some NOT_APPLICABLE
  | .num q => classifyScan sentiment_subjectivity_to_words_mapping (q * 100)

/-- Model of `spelling_quality(score)` from core.py. -/
def spelling_quality : ScoreInput → Option String
  | .na => some NOT_APPLICABLE
  | .num q => classifyScan spelling_quality_score_to_words_mapping (q * 100)

/-! ## Summarizers -/

/-- Model of `sentiment_polarity_summarised(polarity)` from core.py
(`polarity.lower()` is modelled by `pyLower` on the character list). -/
def sentiment_polarity_summarised (polarity : String) : String :=
  if isSubList needleNegative.toList (pyLower polarity.toList) then catNegative
  else if isSubList needlePositive.toList (pyLower polarity.toList) then catPositive
  else polarity

/-- Model of `sentiment_subjectivity_summarised(sentiment_subjectivity)`
from core.py: a label containing a slash is returned unchanged. -/
def sentiment_subjectivity_summarised (subjectivity : String) : String :=
  if subjectivity.toList.contains '/' then subjectivity
  else if isSubList needleSubjective.toList (pyLower subjectivity.toList) then catSubjective
  else catObjective

/-- Model of `spelling_quality_summarised(spelling_quality)` from core.py. -/
def spelling_quality_summarised (quality : String) : String :=
  if isSubList needleGood.toList (pyLower quality.toList) then lblGood
  else lblBad


/-! ## Sentences

`gather_sentences` in core.py is
`lines = re.findall(r'([^.]*[^.]*)', text)` followed by
`for index, each in enumerate(lines): if each == '': del lines[index]`.

The pattern `[^.]*[^.]*` matches exactly what `[^.]*` matches: a maximal
(possibly empty) run of non-dot characters.  Python `re.findall` (3.7+)
emits every match, advancing one position past an empty match, so the
returned list is: each maximal nonempty run of non-dot characters, one
empty string per `.` of the text, and one trailing empty string.

Deleting from the list while iterating over `enumerate` of it makes the
iterator skip the element that follows each deleted element; that element
is kept without being examined. -/

/-- Emit a gathered run the way `re.findall` reports it: an empty run
produces no separate entry of its own at that point. -/
def emitPart (p : List Char) : List (List Char) := if p = [] then [] else [p]

/-- Scanner for `re.findall` of a `[^.]*` pattern: `acc` holds the
characters of the run read so far, in reverse. -/
def findallAux : List Char → List Char → List (List Char)
  | [], acc => emitPart acc.reverse ++ [[]]
  | c :: rest, acc =>
    if c = '.' then emitPart acc.reverse ++ ([] :: findallAux rest [])
    else findallAux rest (c :: acc)

/-- Model of `re.findall(r'([^.]*[^.]*)', text)`. -/
def findallNonDotRuns (t : List Char) : List (List Char) := findallAux t []

/-- Model of `for index, each in enumerate(lines): if each == '': del
lines[index]` under CPython semantics: a deletion shifts the list left, so
the element after each deleted one is skipped (kept unexamined). -/
def pyDelBlanksSkip : List (List Char) → List (List Char)
  | [] => []
  | x :: rest =>
    if x = [] then
      match rest with
      | [] => []
      | y :: rest2 => y :: pyDelBlanksSkip rest2
    else x :: pyDelBlanksSkip rest

/-- Model of `gather_sentences(text)` from core.py. -/
def gather_sentences (t : List Char) : List (List Char) :=
  pyDelBlanksSkip (findallNonDotRuns t)

/-- Model of `count_sentences(text)` from core.py. -/
def count_sentences (t : List Char) : Nat := (gather_sentences t).length

/-- Splitting a text on the `.` character (the parts, in order, including
blank ones).  This is the notion the specification's sentence-count
wording is phrased in. -/
def splitOnDot : List Char → List (List Char)
  | [] => [[]]
  | c :: rest =>
    let r := splitOnDot rest
    if c = '.' then [] :: r else (c :: r.headI) :: r.tail

/-- Modelled from the spec's words: "split text on the `.` character;
treat maximal runs between (or before/after) separators as sentences;
blank results dropped" — the sentence count that wording prescribes. -/
def specSentenceCount (t : List Char) : Nat :=
  ((splitOnDot t).filter (fun p => p ≠ [])).length


/-- Whether the text contains two adjacent `.` characters. -/
def hasDoubleDot : List Char → Bool
  | a :: b :: rest => (a = '.' && b = '.') || hasDoubleDot (b :: rest)
  | _ => false

/-- Whether the text ends with the `.` character. -/
def endsWithDot : List Char → Bool
  | [] => false
  | [c] => c = '.'
  | _ :: rest => endsWithDot rest

/-- The findall output, expressed over the dot-separated parts of the
text: each nonempty part, one empty entry per separator, and one trailing
empty entry. -/
def emitE : List (List Char) → List (List Char)
  | [] => [[]]
  | [p] => emitPart p ++ [[]]
  | p :: ps => emitPart p ++ ([] :: emitE ps)

/-- Prepend accumulated characters onto the first part. -/
def consHead (x : List Char) : List (List Char) → List (List Char)
  | [] => [x]
  | p :: ps => (x ++ p) :: ps

/-! ## Alphanumeric counters -/

/-- Character class of the `[A-Za-z0-9]` pattern. -/
def isAlphaNumericChar (c : Char) : Bool :=
  ('A' ≤ c && c ≤ 'Z') || ('a' ≤ c && c ≤ 'z') || ('0' ≤ c && c ≤ '9')

/-- Model of `gather_alpha_numeric(text)`: `re.findall('[A-Za-z0-9]', text)`
returns each matching character individually, in order. -/
def gather_alpha_numeric (t : List Char) : List Char := t.filter isAlphaNumericChar

/-- Model of `count_alpha_numeric(text)` from core.py. -/
def count_alpha_numeric (t : List Char) : Nat := (gather_alpha_numeric t).length

/-- Model of `gather_non_alpha_numeric(text)`: `re.findall('[^A-Za-z0-9]', text)`. -/
def gather_non_alpha_numeric (t : List Char) : List Char :=
  t.filter (fun c => !(isAlphaNumericChar c))

/-- Model of `count_non_alpha_numeric(text)` from core.py. -/
def count_non_alpha_numeric (t : List Char) : Nat := (gather_non_alpha_numeric t).length

/-- Model of the `characters_count` column of `apply_text_profiling`,
which applies Python `len` to the text. -/
def characters_count (t : List Char) : Nat := t.length

/-! ## Dates

`gather_dates(text, date_format)` looks the format up in a two-entry dict
(`KeyError`, modelled as `none`, for any other key) and runs `re.findall`
with the chosen pattern.  Both date patterns are alternations of
fixed-width branches (2-char day, 2-char month, 4-digit year, `/`
separators, `\b` on both sides), so the scan below — try a 10-character
match at each position, advance past a match, otherwise advance one
character — is exactly the regex's behavior; `\w` is modelled as
ASCII-alphanumeric-or-underscore. -/

def fmtDDMMYYYY : String := "dd/mm/yyyy"
def fmtMMDDYYYY : String := "mm/dd/yyyy"

def isWordChar (c : Char) : Bool := c.isAlphanum || c = '_'

/-- The day alternation `(3[01]|[12][0-9]|0[1-9])`. -/
def dayOk (d1 d2 : Char) : Bool :=
  (d1 = '3' && (d2 = '0' || d2 = '1')) ||
  ((d1 = '1' || d1 = '2') && d2.isDigit) ||
  (d1 = '0' && ('1' ≤ d2 && d2 ≤ '9'))

/-- The month alternation `(1[0-2]|0[1-9])`. -/
def monthOk (m1 m2 : Char) : Bool :=
  (m1 = '1' && (m2 = '0' || m2 = '1' || m2 = '2')) ||
  (m1 = '0' && ('1' ≤ m2 && m2 ≤ '9'))

/-- The leading `\b`: satisfied at the string start or after a non-word
character (the match itself starts with a digit, a word character). -/
def boundaryOk : Option Char → Bool
  | none => true
  | some c => !(isWordChar c)

/-- The trailing `\b`: satisfied at the string end or before a non-word
character (the match ends with a digit). -/
def headBoundaryOk : List Char → Bool
  | [] => true
  | c :: _ => !(isWordChar c)

/-- The full 10-character date pattern attempted at one position: `prev`
is the character before the position, `a1` the character at it.  Returns
the findall group tuple when the pattern (with both `\b` boundaries)
matches here. -/
def matchDateAt (dayFirst : Bool) (prev : Option Char) (a1 : Char) (rest : List Char) :
    Option (List Char × List Char × List Char) :=
  match rest with
  | a2 :: s1 :: b1 :: b2 :: s2 :: y1 :: y2 :: y3 :: y4 :: rest2 =>
    if boundaryOk prev && s1 = '/' && s2 = '/' &&
        (if dayFirst then dayOk a1 a2 && monthOk b1 b2
         else monthOk a1 a2 && dayOk b1 b2) &&
        (y1.isDigit && y2.isDigit && y3.isDigit && y4.isDigit) &&
        headBoundaryOk rest2 then
      some ([a1, a2], [b1, b2], [y1, y2, y3, y4])
    else none
  | _ => none

/-- Scanner for the two date regexes, one character per step; a match
emits its groups and sets `skip := 9` so the scan resumes just past the
match (findall matches are non-overlapping); `prev` tracks the previous
character for the leading `\b`. -/
def scanDatesAux (dayFirst : Bool) : Nat → Option Char → List Char →
    List (List Char × List Char × List Char)
  | _, _, [] => []
  | Nat.succ k, _, c :: rest => scanDatesAux dayFirst k (some c) rest
  | 0, prev, c :: rest =>
    match matchDateAt dayFirst prev c rest with
    | some g => g :: scanDatesAux dayFirst 9 (some c) rest
    | none => scanDatesAux dayFirst 0 (some c) rest

/-- Model of `re.findall` with the date regex: `dayFirst` selects the
`dd/mm/yyyy` pattern over the `mm/dd/yyyy` one. -/
def scanDates (dayFirst : Bool) (t : List Char) :
    List (List Char × List Char × List Char) :=
  scanDatesAux dayFirst 0 none t

/-- Model of `gather_dates(text, date_format)` from core.py; `none`
models the `KeyError` raised by `regex_list[date_format]` for an
unsupported format identifier. -/
def gather_dates (text : List Char) (date_format : String) :
    Option (List (List Char × List Char × List Char)) :=
  if date_format = fmtDDMMYYYY then some (scanDates true text)
  else if date_format = fmtMMDDYYYY then some (scanDates false text)
  else none

/-- Model of `count_dates(text)` from core.py, which calls `gather_dates`
with its default `dd/mm/yyyy` format. -/
def count_dates (text : List Char) : Option Nat :=
  (gather_dates text fmtDDMMYYYY).map List.length

/-! ## Emojis

`gather_emojis(text)` transliterates emoji glyphs with `emoji.demojize`
(an external collaborator, taken as a parameter) and then runs
`re.findall(r'\:(.*?)\:', ...)`: it reports the text between each pair of
colons, shortest-first, non-overlapping, with `.` not crossing a newline.
`colonScan` is that regex as a one-pass automaton: outside a candidate,
a colon opens one; inside, a colon emits the accumulated group and a
newline aborts the candidate (the characters between the opening colon
and the newline contain no colon, so rescanning from just after the
opening colon finds nothing before the newline). -/

/-- One-pass automaton for `re.findall` of a colon-pair pattern:
`none` = outside any candidate match, `some acc` = inside one, `acc`
holding the characters since the opening colon in reverse. -/
def colonScan : Option (List Char) → List Char → List (List Char)
  | _, [] => []
  | none, c :: rest =>
    if c = ':' then colonScan (some []) rest else colonScan none rest
  | some acc, c :: rest =>
    if c = ':' then acc.reverse :: colonScan none rest
    else if c = '\n' then colonScan none rest
    else colonScan (some (c :: acc)) rest

/-- Model of `gather_emojis(text)` from core.py, parameterized by the
external `emoji.demojize` transliterator. -/
def gather_emojis (demojize : List Char → List Char) (text : List Char) :
    List (List Char) :=
  colonScan none (demojize text)

/-- Model of `count_emojis(text)` from core.py. -/
def count_emojis (demojize : List Char → List Char) (text : List Char) : Nat :=
  (gather_emojis demojize text).length

/-! ## Spelling quality score

`spelling_quality_score(text)` lowercases and tokenizes the text (the
NLTK tokenizer and the TextBlob per-word spellcheck confidence are
external collaborators, taken as parameters), skips tokens that are
substrings of `string.punctuation`, counts checked and misspelt tokens,
divides by `count_sentences(text)` and again by the resulting average;
a Python `ZeroDivisionError` is modelled as a dedicated result value. -/

/-- The Python `string.punctuation` constant. -/
def PUNCT_CHARS : String := "!\"#$%&'()*+,-./:;<=>?@[\\]^_`\x7b|\x7d~"

/-- Result of `spelling_quality_score`: the function either raises
`ZeroDivisionError`, returns the `NOT_APPLICABLE` string, or returns a
number. -/
inductive SpellScoreResult where
  | zeroDivisionError : SpellScoreResult
  | notApplicable : SpellScoreResult
  | score (q : ℚ) : SpellScoreResult
deriving DecidableEq

/-- Model of `spelling_quality_score(text)` from core.py.  A token is
skipped when `each_word not in string.punctuation` fails, i.e. when it is
a contiguous substring of the punctuation constant. -/
def spelling_quality_score (word_tokenize : List Char → List (List Char))
    (spellcheckScore : List Char → ℚ) (text : List Char) : SpellScoreResult :=
  if pyIsBlank text then .notApplicable
  else
    let tokenized_text := word_tokenize (pyLower text)
    let checked_words := tokenized_text.filter (fun w => !(isSubList w PUNCT_CHARS.toList))
    let misspelt_words_count := (checked_words.filter (fun w => spellcheckScore w ≠ 1)).length
    let total_words_checks := checked_words.length
    let num_of_sentences := count_sentences text
    if num_of_sentences = 0 then .zeroDivisionError
    else
      let avg_words_per_sentence : ℚ :=
        (total_words_checks : ℚ) / (num_of_sentences : ℚ)
      if avg_words_per_sentence = 0 then .zeroDivisionError
      else
        let result :=
          (avg_words_per_sentence - (misspelt_words_count : ℚ)) / avg_words_per_sentence
        if 0 ≤ result then .score result else .score 0

theorem splitOnDot_ne_nil (t : List Char) : splitOnDot t ≠ [] := by
  cases t with
  | nil => simp [splitOnDot]
  | cons c rest => simp only [splitOnDot]; split <;> simp

theorem findallAux_eq (t : List Char) :
    ∀ acc : List Char, findallAux t acc = emitE (consHead acc.reverse (splitOnDot t)) := by
  induction t with
  | nil => intro acc; simp [findallAux, splitOnDot, consHead, emitE]
  | cons c rest ih =>
    intro acc
    obtain ⟨p, ps, hps⟩ := List.exists_cons_of_ne_nil (splitOnDot_ne_nil rest)
    by_cases hc : c = '.'
    · subst hc
      simp [findallAux, splitOnDot, hps, consHead, emitE, ih]
    · simp [findallAux, splitOnDot, hc, hps, consHead, emitE, ih]

theorem delBlanks_emitE (ps : List (List Char)) :
    ps ≠ [] → (∀ q ∈ ps, q ≠ []) →
    pyDelBlanksSkip (emitE ps) = ps ∧ pyDelBlanksSkip ([] :: emitE ps) = ps := by
  induction ps with
  | nil => intro h; exact absurd rfl h
  | cons q ps' ih =>
    intro _ hall
    have hq : q ≠ [] := hall q (by simp)
    cases ps' with
    | nil => constructor <;> simp [emitE, emitPart, hq, pyDelBlanksSkip]
    | cons r ps'' =>
      have ih' := ih (by simp) (fun x hx => hall x (by simp [hx]))
      constructor <;>
        simp [emitE, emitPart, hq, pyDelBlanksSkip, ih'.2]

theorem hasDoubleDot_tail {c : Char} {rest : List Char}
    (h : hasDoubleDot (c :: rest) = false) : hasDoubleDot rest = false := by
  cases rest with
  | nil => simp [hasDoubleDot]
  | cons d r =>
    simp only [hasDoubleDot, Bool.or_eq_false_iff] at h
    exact h.2

theorem endsWithDot_tail {c : Char} {rest : List Char} (hne : rest ≠ [])
    (h : endsWithDot (c :: rest) = false) : endsWithDot rest = false := by
  cases rest with
  | nil => exact absurd rfl hne
  | cons d r => simpa [endsWithDot] using h

theorem splitOnDot_cons_ne_dot {c : Char} (rest : List Char) (hc : c ≠ '.') :
    splitOnDot (c :: rest) =
      (c :: (splitOnDot rest).headI) :: (splitOnDot rest).tail := by
  simp [splitOnDot, hc]

theorem splitOnDot_cons_dot (rest : List Char) :
    splitOnDot ('.' :: rest) = [] :: splitOnDot rest := by
  simp [splitOnDot]

theorem splitOnDot_tail_ne_nil (t : List Char) :
    hasDoubleDot t = false → endsWithDot t = false →
    ∀ q ∈ (splitOnDot t).tail, q ≠ [] := by
  induction t with
  | nil => intro _ _ q hq; simp [splitOnDot] at hq
  | cons c rest ih =>
    intro hdd hed q hq
    by_cases hc : c = '.'
    · subst hc
      cases rest with
      | nil => simp [endsWithDot] at hed
      | cons d rest' =>
        have hd : d ≠ '.' := by
          intro hd
          subst hd
          simp [hasDoubleDot] at hdd
        rw [splitOnDot_cons_dot, List.tail_cons, splitOnDot_cons_ne_dot rest' hd] at hq
        rcases List.mem_cons.mp hq with h | h
        · subst h; simp
        · exact ih (hasDoubleDot_tail hdd) (endsWithDot_tail (by simp) hed) q
            (by rw [splitOnDot_cons_ne_dot rest' hd]; simpa using h)
    · rw [splitOnDot_cons_ne_dot rest hc] at hq
      simp only [List.tail_cons] at hq
      cases rest with
      | nil => simp [splitOnDot] at hq
      | cons d rest' =>
        exact ih (hasDoubleDot_tail hdd) (endsWithDot_tail (by simp) hed) q hq

theorem filter_ne_nil_eq_self (l : List (List Char)) (h : ∀ q ∈ l, q ≠ []) :
    l.filter (fun p => p ≠ []) = l := by
  rw [List.filter_eq_self]
  intro a ha
  simpa using h a ha

/-- Claim C2, amended: for every text containing no two adjacent `.`
characters and not ending in `.`, `count_sentences` returns the number of
maximal runs obtained by splitting the text on the `.` character with all
blank results dropped; in particular a non-empty text with no `.` yields
exactly one sentence and the empty text yields zero.  (The restriction is
forced: the blank-deleting pass of `gather_sentences` skips the entry
after each deletion, so texts ending in `.` or containing `..` retain a
blank entry and over-count.) -/
theorem claim_C2_count_sentences_splits_on_dot (t : List Char)
    (h1 : hasDoubleDot t = false) (h2 : endsWithDot t = false) :
    count_sentences t = specSentenceCount t := by
  obtain ⟨p, ps, hps⟩ := List.exists_cons_of_ne_nil (splitOnDot_ne_nil t)
  have htail : ∀ q ∈ ps, q ≠ [] := by
    have h := splitOnDot_tail_ne_nil t h1 h2
    rw [hps] at h
    simpa using h
  have key : gather_sentences t = pyDelBlanksSkip (emitE (p :: ps)) := by
    unfold gather_sentences findallNonDotRuns
    rw [findallAux_eq, List.reverse_nil, hps]
    simp [consHead]
  unfold count_sentences specSentenceCount
  rw [key, hps]
  by_cases hp : p = []
  · subst hp
    cases ps with
    | nil => simp [emitE, emitPart, pyDelBlanksSkip]
    | cons r ps' =>
      have hd := (delBlanks_emitE (r :: ps') (by simp) htail).2
      have he : emitE ([] :: r :: ps') = [] :: emitE (r :: ps') := by
        simp [emitE, emitPart]
      rw [he, hd]
      rw [show (([] : List Char) :: r :: ps').filter (fun p => p ≠ []) =
            (r :: ps').filter (fun p => p ≠ []) by simp]
      rw [filter_ne_nil_eq_self _ htail]
  · have hall : ∀ q ∈ p :: ps, q ≠ [] := by
      intro q hq
      rcases List.mem_cons.mp hq with h | h
      · exact h ▸ hp
      · exact htail q h
    rw [(delBlanks_emitE (p :: ps) (by simp) hall).1,
      filter_ne_nil_eq_self _ hall]

/-- Claim C2, counterexample to the original wording: for the text
`"a."`, `count_sentences` returns 2, while splitting on `.` and dropping
blank results yields a single sentence. -/
theorem claim_C2_counterexample :
    count_sentences ['a', '.'] = 2 ∧ specSentenceCount ['a', '.'] = 1 := by
  decide

/-- Claim C2 witness: the amended statement instantiated at `"a.b"`. -/
theorem claim_C2_witness :
    hasDoubleDot ['a', '.', 'b'] = false ∧ endsWithDot ['a', '.', 'b'] = false ∧
      count_sentences ['a', '.', 'b'] = specSentenceCount ['a', '.', 'b'] :=
  ⟨by decide, by decide,
    claim_C2_count_sentences_splits_on_dot ['a', '.', 'b'] (by decide) (by decide)⟩

/-- Claim C3: each of the three slab classifiers returns the
NOT_APPLICABLE sentinel unchanged when given it (the guard at the top of
each function fires before the slab table is consulted). -/
theorem claim_C3_not_applicable_passthrough :
    sentiment_polarity .na = some NOT_APPLICABLE ∧
      sentiment_subjectivity .na = some NOT_APPLICABLE ∧
      spelling_quality .na = some NOT_APPLICABLE :=
  ⟨rfl, rfl, rfl⟩

/-- Claim C4: at each inclusive boundary value shared by two adjacent
polarity slabs (99, 87, 51, 49, 12, 2 — e.g. 99 lies in both the "Very
positive" slab [99, 100] and the "Quite positive" slab [87, 99]), the
first-match-wins linear scan returns the label of the first slab in
declared table order, never the later one. -/
theorem claim_C4_shared_boundary_first_slab_wins :
    ((99:ℚ) ≤ 99 ∧ (99:ℚ) ≤ 100 ∧ (87:ℚ) ≤ 99 ∧
      classifyScan sentiment_polarity_to_words_mapping 99 = some lblVeryPositive) ∧
    ((87:ℚ) ≤ 87 ∧ (87:ℚ) ≤ 99 ∧ (51:ℚ) ≤ 87 ∧
      classifyScan sentiment_polarity_to_words_mapping 87 = some lblQuitePositive) ∧
    ((51:ℚ) ≤ 51 ∧ (51:ℚ) ≤ 87 ∧ (49:ℚ) ≤ 51 ∧
      classifyScan sentiment_polarity_to_words_mapping 51 = some lblPrettyPositive) ∧
    ((49:ℚ) ≤ 49 ∧ (49:ℚ) ≤ 51 ∧ (12:ℚ) ≤ 49 ∧
      classifyScan sentiment_polarity_to_words_mapping 49 = some lblNeutral) ∧
    ((12:ℚ) ≤ 12 ∧ (12:ℚ) ≤ 49 ∧ (2:ℚ) ≤ 12 ∧
      classifyScan sentiment_polarity_to_words_mapping 12 = some lblPrettyNegative) ∧
    ((2:ℚ) ≤ 2 ∧ (2:ℚ) ≤ 12 ∧ (0:ℚ) ≤ 2 ∧
      classifyScan sentiment_polarity_to_words_mapping 2 = some lblQuiteNegative) := by
  norm_num [classifyScan, sentiment_polarity_to_words_mapping]

/-- Claim C5: `sentiment_polarity(1.0)` is "Very positive",
`sentiment_polarity(-1.0)` is "Very negative", and
`sentiment_polarity(0.0)` is "Neutral", via the normalization
`(score + 1) / 2 * 100` and the ordered slab scan. -/
theorem claim_C5_polarity_anchor_points :
    sentiment_polarity (.num 1) = some lblVeryPositive ∧
      sentiment_polarity (.num (-1)) = some lblVeryNegative ∧
      sentiment_polarity (.num 0) = some lblNeutral := by
  refine ⟨?_, ?_, ?_⟩ <;>
    norm_num [sentiment_polarity, classifyScan, sentiment_polarity_to_words_mapping]

/-- Claim C8: each summarizer returns its own canonical outputs
unchanged — "Positive", "Negative", "Neutral" for polarity, "Subjective"
and "Objective" for subjectivity, "Good" and "Bad" for spelling — so
applying a summarizer twice equals applying it once on these
categories. -/
theorem claim_C8_summarizers_idempotent :
    sentiment_polarity_summarised catPositive = catPositive ∧
      sentiment_polarity_summarised catNegative = catNegative ∧
      sentiment_polarity_summarised lblNeutral = lblNeutral ∧
      sentiment_subjectivity_summarised catSubjective = catSubjective ∧
      sentiment_subjectivity_summarised catObjective = catObjective ∧
      spelling_quality_summarised lblGood = lblGood ∧
      spelling_quality_summarised lblBad = lblBad := by
  decide

example :
    scanDates true
      ("born 31/12/1999 and 02/29/2020".toList) =
      [(['3', '1'], ['1', '2'], ['1', '9', '9', '9'])] := by decide

example :
    scanDates false ("02/29/2020".toList) =
      [(['0', '2'], ['2', '9'], ['2', '0', '2', '0'])] := by decide

example : gather_dates ("1/1/2020 01/01/2020".toList) fmtDDMMYYYY =
    some [(['0', '1'], ['0', '1'], ['2', '0', '2', '0'])] := by decide

theorem length_filter_add_length_filter_not (p : Char → Bool) (l : List Char) :
    (l.filter p).length + (l.filter (fun c => !(p c))).length = l.length := by
  induction l with
  | nil => rfl
  | cons c r ih =>
    cases hp : p c <;> simp [List.filter_cons, hp, ← ih] <;> omega

/-- Claim C6: the alphanumeric and non-alphanumeric character counters
partition the text — their sum is the text's character count — and
appending characters to a text never decreases its character count. -/
theorem claim_C6_alpha_numeric_partition (t s : List Char) :
    count_alpha_numeric t + count_non_alpha_numeric t = characters_count t ∧
      characters_count t ≤ characters_count (t ++ s) := by
  constructor
  · exact length_filter_add_length_filter_not isAlphaNumericChar t
  · simp [characters_count]

/-- Claim C7: `gather_dates` with a date-format identifier other than
`dd/mm/yyyy` or `mm/dd/yyyy` fails fast (the dict lookup raises
`KeyError`, modelled as `none`) instead of silently returning an empty
match list. -/
theorem claim_C7_unsupported_date_format_fails (t : List Char) (fmt : String)
    (h1 : fmt ≠ fmtDDMMYYYY) (h2 : fmt ≠ fmtMMDDYYYY) :
    gather_dates t fmt = none := by
  simp [gather_dates, h1, h2]

/-- Claim C7 witness: an unsupported format identifier on the empty text. -/
theorem claim_C7_witness : gather_dates [] NOT_APPLICABLE = none :=
  claim_C7_unsupported_date_format_fails [] NOT_APPLICABLE (by decide) (by decide)

example : colonScan none (['a', ' ', ':', 'b', ':', ' ', 'c']) = [['b']] := by decide
example : colonScan none ([':', 'a', '\n', 'b', ':', 'c', ':']) = [['c']] := by decide
example : colonScan none ([':', ':']) = [[]] := by decide
example : colonScan none ([':', 'a', ':', 'b', ':']) = [['a']] := by decide

/-- Claim C10: `count_emojis` counts colon-delimited name tokens in the
transliterated text, so on the input `"a :b: c"` — which contains a
colon-wrapped word and no emoji glyph, so that the transliterator returns
it unchanged — it returns the positive count 1. -/
theorem claim_C10_colon_wrapped_word_counted
    (demojize : List Char → List Char)
    (h : demojize ['a', ' ', ':', 'b', ':', ' ', 'c'] = ['a', ' ', ':', 'b', ':', ' ', 'c']) :
    0 < count_emojis demojize ['a', ' ', ':', 'b', ':', ' ', 'c'] ∧
      count_emojis demojize ['a', ' ', ':', 'b', ':', ' ', 'c'] = 1 := by
  unfold count_emojis gather_emojis
  rw [h]
  exact ⟨by decide, by decide⟩

/-- Claim C10 witness: the identity transliterator (no emoji glyph in the
text, so `emoji.demojize` changes nothing). -/
theorem claim_C10_witness :
    0 < count_emojis (fun t => t) ['a', ' ', ':', 'b', ':', ' ', 'c'] ∧
      count_emojis (fun t => t) ['a', ' ', ':', 'b', ':', ' ', 'c'] = 1 :=
  claim_C10_colon_wrapped_word_counted (fun t => t) rfl

theorem findallAux_length_pos (t : List Char) :
    ∀ acc : List Char, 1 ≤ (findallAux t acc).length := by
  induction t with
  | nil => intro acc; simp [findallAux]
  | cons c rest ih =>
    intro acc
    by_cases hc : c = '.'
    · simp [findallAux, hc, List.length_append]
      omega
    · simpa [findallAux, hc] using ih (c :: acc)

theorem findallAux_length_two (t : List Char) :
    ∀ acc : List Char, acc ≠ [] ∨ t ≠ [] → 2 ≤ (findallAux t acc).length := by
  induction t with
  | nil =>
    intro acc h
    have ha : acc ≠ [] := by tauto
    simp [findallAux, emitPart, ha]
  | cons c rest ih =>
    intro acc _
    by_cases hc : c = '.'
    · have := findallAux_length_pos rest []
      simp [findallAux, hc, List.length_append]
      omega
    · simpa [findallAux, hc] using ih (c :: acc) (Or.inl (by simp))

theorem pyDelBlanksSkip_length (L : List (List Char)) (h : 2 ≤ L.length) :
    1 ≤ (pyDelBlanksSkip L).length := by
  match L with
  | [] => simp at h
  | [x] => simp at h
  | x :: y :: rest =>
    by_cases hx : x = [] <;> simp [pyDelBlanksSkip, hx]

theorem count_sentences_pos (t : List Char) (h : t ≠ []) :
    1 ≤ count_sentences t := by
  unfold count_sentences gather_sentences findallNonDotRuns
  exact pyDelBlanksSkip_length _ (findallAux_length_two t [] (Or.inr h))

/-- Claim C1: the specification requires `spelling_quality_score` to be
guarded against division by zero, but the code is not: on any non-blank
text whose tokenization yields only punctuation tokens (such as `"."`),
the average-words-per-sentence is zero and the score computation raises
`ZeroDivisionError` instead of returning NOT_APPLICABLE or zero. -/
theorem claim_C1_zero_division_crash
    (word_tokenize : List Char → List (List Char)) (spellcheckScore : List Char → ℚ)
    (t : List Char) (hb : pyIsBlank t = false)
    (hp : (word_tokenize (pyLower t)).filter (fun w => !(isSubList w PUNCT_CHARS.toList)) = []) :
    spelling_quality_score word_tokenize spellcheckScore t = .zeroDivisionError := by
  have ht : t ≠ [] := by
    intro h
    subst h
    simp [pyIsBlank] at hb
  have hn : count_sentences t ≠ 0 := by
    have := count_sentences_pos t ht
    omega
  simp only [spelling_quality_score, hb, hp, hn, Bool.false_eq_true, if_false,
    List.filter_nil, List.length_nil, Nat.cast_zero, zero_div, eq_self_iff_true,
    if_true]

/-- Claim C1 witness: the text `"."` with the tokenizer behaving as NLTK
does on it (returning the single token `"."`, a punctuation substring):
the computation reaches the division by zero. -/
theorem claim_C1_witness :
    spelling_quality_score (fun _ => [['.']]) (fun _ => 1) ['.'] =
      SpellScoreResult.zeroDivisionError :=
  claim_C1_zero_division_crash (fun _ => [['.']]) (fun _ => 1) ['.']
    (by decide) (by decide)

/-- Claim C9: whenever `spelling_quality_score` completes with a numeric
result, that result is nonnegative — a negative raw ratio is clamped to
zero by the final `result if result >= 0 else 0`. -/
theorem claim_C9_spelling_score_nonneg
    (word_tokenize : List Char → List (List Char)) (spellcheckScore : List Char → ℚ)
    (t : List Char) (q : ℚ)
    (h : spelling_quality_score word_tokenize spellcheckScore t = .score q) :
    0 ≤ q := by
  simp only [spelling_quality_score] at h
  split at h
  · simp at h
  · split at h
    · simp at h
    · split at h
      · simp at h
      · split at h
        · rename_i hres
          injection h with h'
          exact h' ▸ hres
        · injection h with h'
          exact h' ▸ le_refl 0

/-- Claim C9 witness: a one-word, correctly spelt text completes with the
nonnegative score 1. -/
theorem claim_C9_witness : (0 : ℚ) ≤ 1 :=
  claim_C9_spelling_score_nonneg (fun _ => [['a']]) (fun _ => 1) ['a'] 1
    (by
      have h1 : pyIsBlank ['a'] = false := by decide
      have h2 : count_sentences ['a'] = 1 := by decide
      have h3 : isSubList ['a'] PUNCT_CHARS.data = false := by decide
      simp [spelling_quality_score, h1, h2, h3])


example : sentiment_polarity (.num 1) = some lblVeryPositive := by
  norm_num [sentiment_polarity, classifyScan, sentiment_polarity_to_words_mapping]
example : sentiment_polarity_summarised catPositive = catPositive := by decide
example : spelling_quality_summarised lblPrettyGood = lblGood := by decide
example : sentiment_subjectivity_summarised lblObjectiveSubjective = lblObjectiveSubjective := by decide

example : count_sentences [] = 0 := by decide
example : count_sentences ['a'] = 1 := by decide
example : count_sentences ['.'] = 1 := by decide
example : count_sentences ['a', '.'] = 2 := by decide
example : count_sentences ['a', '.', 'b'] = 2 := by decide
example : count_sentences ['.', 'b'] = 1 := by decide
example : count_sentences ['a', '.', '.', 'b'] = 3 := by decide
example : specSentenceCount ['a', '.'] = 1 := by decide
example : specSentenceCount ['.'] = 0 := by decide
example : specSentenceCount ['a', '.', 'b'] = 2 := by decide